import Mathlib

/-!
Verification of the hai-discovery-tools discovery service
(`src/containers/discovery-service/app`).

This file shallowly embeds the parts of the Python source that the
specification's claims talk about:

* the command-output parsers (`parsers/cdp_parser.py`, `parsers/lldp_parser.py`,
  `device_handler.py` helpers, `discovery_methods/seed_device_helper.py`);
* the device handler operations `get_device_neighbors` / `get_device_config`
  (network I/O is modelled by an explicit environment record holding the
  outputs the device would have produced);
* the neighbor walk (`discovery_methods/neighbor_discovery.py`): the
  `process_device` credential loop as a pure fold, the work queue as a
  transition system, and `_build_topology` as a pure function;
* the reachability prober counters (`discovery_methods/ip_reachability.py`).

Python regular-expression searches are embedded as hand-written scanners over
`List Char` that implement the concrete pattern of each `re.search` /
`re.finditer` call in the source (leftmost match, greedy / lazy quantifier
behaviour as the pattern dictates).  Interpolated interface names inside
f-string patterns are treated as literal text, which coincides with the
source's behaviour for names without regex metacharacters.
-/

/-! ### Character classes and Python string primitives -/

/-- Python `\s` for ASCII text (`str.strip`, `\s` class). -/
def isPyWs (c : Char) : Bool :=
  c = ' ' || c = '\t' || c = '\n' || c = '\r' || c = '\x0b' || c = '\x0c'

/-- Python `\w` for ASCII text. -/
def isPyWord (c : Char) : Bool :=
  c.isAlphanum || c = '_'

/-- Python `\d`. -/
def isPyDigit (c : Char) : Bool := c.isDigit

/-- Python `str.strip()` on a character list. -/
def pyStrip (s : List Char) : List Char :=
  ((s.dropWhile isPyWs).reverse.dropWhile isPyWs).reverse

/-- Python `str.lower()` (ASCII). -/
def pyLower (s : List Char) : List Char := s.map Char.toLower

/-- Python `sub in s` (substring containment). -/
def pyContains (s sub : List Char) : Bool := decide (sub <:+: s)

/-- Python `s.startswith(p)`. -/
def pyStarts (s p : List Char) : Bool := decide (p <+: s)

/-- Split a character list at every occurrence of a separator character
(Python `str.split(sep)` with a one-character separator). -/
def pySplitChar (sep : Char) : List Char → List (List Char)
  | [] => [[]]
  | c :: rest =>
    let r := pySplitChar sep rest
    if c = sep then [] :: r
    else match r with
      | [] => [[c]]
      | h :: t => (c :: h) :: t

/-- Python `str.split()` with no separator: split on whitespace runs,
dropping empty tokens. -/
def pySplitWs : List Char → List (List Char)
  | [] => []
  | c :: rest =>
    if isPyWs c then pySplitWs rest
    else match pySplitWs rest with
      | [] => [[c]]
      | h :: t =>
        match rest with
        | [] => [[c]]
        | c2 :: _ => if isPyWs c2 then [c] :: h :: t else (c :: h) :: t

/-- Drop everything up to and including the first occurrence of `pat`;
`none` when `pat` does not occur.  (Used to model the leftmost-match
behaviour of `re.search`.) -/
def afterFirst (pat : List Char) : List Char → Option (List Char)
  | [] => if pat = [] then some [] else none
  | s@(_ :: tail) =>
    if pat <+: s then some (s.drop pat.length) else afterFirst pat tail

/-- Scan left to right and return the first position at which `m` succeeds
(the leftmost-match rule of `re.search`). -/
def reSearch (m : List Char → Option α) : List Char → Option α
  | [] => none
  | s@(_ :: tail) =>
    match m s with
    | some a => some a
    | none => reSearch m tail

/-- `re.finditer`: repeatedly take the leftmost match and continue after its
end (matchers report the unconsumed rest; all patterns used here consume at
least one character). -/
def reFindAll (m : List Char → Option (α × List Char)) : Nat → List Char → List α
  | 0, _ => []
  | _, [] => []
  | fuel + 1, s@(_ :: tail) =>
    match m s with
    | some (a, rest) =>
      a :: reFindAll m fuel (if rest.length < s.length then rest else tail)
    | none => reFindAll m fuel tail

/-- Consume a literal. -/
def litP (pat : List Char) (s : List Char) : Option (List Char) :=
  if pat <+: s then some (s.drop pat.length) else none

/-- Consume a literal case-insensitively (`re.IGNORECASE`); the pattern is
given in lowercase. -/
def litCI : List Char → List Char → Option (List Char)
  | [], s => some s
  | _ :: _, [] => none
  | p :: ps, c :: cs => if c.toLower = p then litCI ps cs else none

/-- Greedy run of characters satisfying `p`, at least one required
(a `X+` class atom): returns the run and the rest. -/
def run1 (p : Char → Bool) (s : List Char) : Option (List Char × List Char) :=
  let r := s.takeWhile p
  if r = [] then none else some (r, s.drop r.length)

/-- Greedy run, zero allowed (`X*`). -/
def run0 (p : Char → Bool) (s : List Char) : List Char × List Char :=
  (s.takeWhile p, s.drop (s.takeWhile p).length)

example : pySplitWs "  a bc  d ".data = ["a".data, "bc".data, "d".data] := by decide
example : pyStrip "  ab c\n".data = "ab c".data := by decide
example : pySplitChar '\n' "a\nb\n".data = ["a".data, "b".data, [].map id] := by decide
example : pyContains "xyz % Invalid z".data "% Invalid".data = true := by decide
example : afterFirst "bc".data "abcd".data = some "d".data := by decide

/-! ### Data model (`app/models.py` and the loose neighbor dictionaries) -/

/-- `models.DeviceInterface` (pydantic model, all extraction fields optional). -/
structure DeviceInterface where
  name : String
  ip_address : Option String := none
  subnet_mask : Option String := none
  mac_address : Option String := none
  description : Option String := none
  status : Option String := none
  vlan : Option String := none
  connected_to : Option String := none
  is_trunk : Bool := false
  secondary_ips : List (String × String) := []
deriving Repr, DecidableEq

/-- A neighbor dictionary as built by `CDPParser.parse_cdp_output` /
`LLDPParser.parse_lldp_output`: a loose `Dict[str, Any]` whose keys are set
only when the corresponding regex matched (`none` models an absent key). -/
structure NbDict where
  hostname : Option String := none
  ip_address : Option String := none
  platform : Option String := none
  software_version : Option String := none
  capabilities : Option String := none
  local_interface : Option String := none
  remote_interface : Option String := none
  holdtime : Option Nat := none
  vlan : Option String := none
  vtp_domain : Option String := none
  native_vlan : Option String := none
  duplex : Option String := none
deriving Repr, DecidableEq

/-- A connection entry as emitted by `NeighborDiscovery._build_topology`
(the dict with keys source/target/source_port/target_port). -/
structure Conn where
  source : String
  target : String
  source_port : String
  target_port : String
deriving Repr, DecidableEq

/-! ### Shared pattern scanners

Each definition implements one concrete `re` pattern from the source. -/

/-- Class `[\w\.-]`. -/
def isWordDotDash (c : Char) : Bool := isPyWord c || c = '.' || c = '-'

/-- Class `[\d\.]`. -/
def isDigitDot (c : Char) : Bool := isPyDigit c || c = '.'

/-- `\d+\.\d+\.\d+\.\d+` at the current position: a dotted quad of digit
runs; returns the matched text and the rest. -/
def matchQuad (s : List Char) : Option (List Char × List Char) := do
  let (d1, r1) ← run1 isPyDigit s
  let r1b ← litP ['.'] r1
  let (d2, r2) ← run1 isPyDigit r1b
  let r2b ← litP ['.'] r2
  let (d3, r3) ← run1 isPyDigit r2b
  let r3b ← litP ['.'] r3
  let (d4, r4) ← run1 isPyDigit r3b
  some (d1 ++ '.' :: d2 ++ '.' :: d3 ++ '.' :: d4, r4)

/-- `LIT[\s]*(\d+)`: literal, optional whitespace, digit run. -/
def matchLitWsDigits (pat : List Char) (s : List Char) : Option (List Char) := do
  let r ← litP pat s
  let (_, r2) := run0 isPyWs r
  let (d, _) ← run1 isPyDigit r2
  some d

/-- `LIT[\s]*(CLASS+)`: literal, optional whitespace, greedy class run. -/
def matchLitWsClass (pat : List Char) (cls : Char → Bool) (s : List Char) :
    Option (List Char) := do
  let r ← litP pat s
  let (_, r2) := run0 isPyWs r
  let (d, _) ← run1 cls r2
  some d

/-- The tail `[\s]*(.+?)$` (with `re.MULTILINE`) after a literal, which also
covers `[\s]*([^\n]+)`: the greedy `[\s]*` may cross newlines and then
backtracks until the remainder starts a non-empty line tail; the capture is
that rest-of-line. -/
def matchWsStarRestOfLine (s : List Char) : Option (List Char) :=
  go ((s.takeWhile isPyWs).length + 1)
where
  go : Nat → Option (List Char)
    | 0 => none
    | k + 1 =>
      match s.drop k with
      | c :: rest => if c = '\n' then go k else some (c :: rest.takeWhile (· ≠ '\n'))
      | [] => go k

/-- `LIT[\s]*(.+?)$` (MULTILINE) / `LIT[\s]*([^\n]+)`. -/
def matchLitRestOfLine (pat : List Char) (s : List Char) : Option (List Char) := do
  let r ← litP pat s
  matchWsStarRestOfLine r

/-- `LIT[\s]*([^,]+),`: literal, optional whitespace (with backtracking into
the whitespace run when the capture would otherwise be empty), then a
non-comma run that must be terminated by a comma. -/
def matchLitNonComma (pat : List Char) (s : List Char) : Option (List Char) :=
  match litP pat s with
  | none => none
  | some r =>
    if pyContains r [','] then
      let w := (r.takeWhile isPyWs).length
      go r w
    else none
where
  go (r : List Char) : Nat → Option (List Char)
    | 0 =>
      let cap := r.takeWhile (· ≠ ',')
      if cap = [] then none else some cap
    | k + 1 =>
      match r.drop (k + 1) with
      | ',' :: _ => go r k
      | _ => some ((r.drop (k + 1)).takeWhile (· ≠ ','))

example : matchQuad "10.1.2.33/24x".data = some ("10.1.2.33".data, "/24x".data) := by decide
example : matchLitWsDigits "VLAN:".data "VLAN: 17 x".data = some "17".data := by decide
example : matchWsStarRestOfLine " B,R\nnext".data = some "B,R".data := by decide
example : matchWsStarRestOfLine " \nnext line".data = some "next line".data := by decide
example : matchLitNonComma "Interface:".data "Interface: Gi0/1, foo".data
    = some "Gi0/1".data := by decide

/-! ### Section splitters for CDP / LLDP output -/

/-- One splitter step: does a separator match start here?  `-{4,}` (and, when
`alsoEq` is set, `={4,}`) matches greedily, so the whole run of the separator
character is consumed. -/
def sepRun (alsoEq : Bool) (s : List Char) : Option (List Char × List Char) :=
  let dash := s.takeWhile (· = '-')
  if dash.length ≥ 4 then some (dash, s.drop dash.length)
  else if alsoEq then
    let eqr := s.takeWhile (· = '=')
    if eqr.length ≥ 4 then some (eqr, s.drop eqr.length) else none
  else none

/-- `re.split(r"-{4,}")` (and with `alsoEq`, `re.split(r"-{4,}|={4,}")`):
pieces between the non-overlapping separator matches. -/
def splitSections (alsoEq : Bool) : Nat → List Char → List (List Char)
  | 0, s => [s]
  | _, [] => [[]]
  | fuel + 1, s@(c :: tail) =>
    match sepRun alsoEq s with
    | some (_, rest) => [] :: splitSections alsoEq fuel rest
    | none =>
      match splitSections alsoEq fuel tail with
      | [] => [[c]]
      | h :: t => (c :: h) :: t

/-- Sections of a CDP/LLDP detail output: split on separator runs. -/
def pySplitSections (alsoEq : Bool) (s : List Char) : List (List Char) :=
  splitSections alsoEq s.length s

example : pySplitSections false "ab----cd".data = ["ab".data, "cd".data] := by decide
example : pySplitSections true "ab====cd---x".data = ["ab".data, "cd---x".data] := by decide

/-! ### `CDPParser.parse_cdp_output` (`app/parsers/cdp_parser.py`) -/

/-- `IP(?:v4)? address:[\s]*([\d\.]+)`. -/
def matchCdpIp (s : List Char) : Option (List Char) := do
  let r ← litP "IP".data s
  let r2 := match litP "v4".data r with
    | some r2 => r2
    | none => r
  let r3 ← litP " address:".data r2
  let (_, r4) := run0 isPyWs r3
  let (d, _) ← run1 isDigitDot r4
  some d

/-- `Version[\s:]*\n?[\s]*([\w\.\(\)]+)`: skip whitespace and colons, then a
greedy run of word characters, dots and parentheses. -/
def matchCdpVersion (s : List Char) : Option (List Char) := do
  let r ← litP "Version".data s
  let (_, r2) := run0 (fun c => isPyWs c || c = ':') r
  let (d, _) ← run1 (fun c => isPyWord c || c = '.' || c = '(' || c = ')') r2
  some d

/-- `Holdtime:[\s]*(\d+) sec`. -/
def matchCdpHoldtime (s : List Char) : Option (List Char) := do
  let r ← litP "Holdtime:".data s
  let (_, r2) := run0 isPyWs r
  let (d, r3) ← run1 isPyDigit r2
  let _ ← litP " sec".data r3
  some d

/-- Python `int()` on a digit string. -/
def digitsToNat (d : List Char) : Nat :=
  d.foldl (fun n c => 10 * n + (c.toNat - 48)) 0

/-- Parse one CDP section into a neighbor dictionary
(the per-field `re.search` calls of the cisco branch). -/
def cdpSection (sec : List Char) : NbDict :=
  { hostname := (reSearch (matchLitWsClass "Device ID:".data isWordDotDash) sec).map
      String.mk
    ip_address := (reSearch matchCdpIp sec).map String.mk
    platform := (reSearch (matchLitNonComma "Platform:".data) sec).map
      (fun r => String.mk (pyStrip r))
    software_version := (reSearch matchCdpVersion sec).map
      (fun r => String.mk (pyStrip r))
    capabilities := (reSearch (matchLitRestOfLine "Capabilities:".data) sec).map
      (fun r => String.mk (pyStrip r))
    local_interface := (reSearch (matchLitNonComma "Interface:".data) sec).map
      (fun r => String.mk (pyStrip r))
    remote_interface :=
      (reSearch (matchLitRestOfLine "Port ID (outgoing port):".data) sec).map
      (fun r => String.mk (pyStrip r))
    holdtime := (reSearch matchCdpHoldtime sec).map digitsToNat
    vtp_domain := (reSearch (matchLitRestOfLine "VTP Management Domain:".data) sec).map
      (fun r => String.mk (pyStrip r))
    native_vlan := (reSearch (matchLitWsDigits "Native VLAN:".data) sec).map String.mk
    duplex := (reSearch (matchLitWsClass "Duplex:".data isPyWord) sec).map String.mk }

/-- cisco branch of `parse_cdp_output`: split into sections, parse each,
keep a neighbor only when hostname and IP are both present. -/
def cdpCiscoSections (output : List Char) : List NbDict :=
  ((pySplitSections false output).filter (fun sec => pyStrip sec ≠ [])).foldl
    (fun acc sec =>
      let nb := cdpSection sec
      if nb.hostname.isSome && nb.ip_address.isSome then acc ++ [nb] else acc) []

/-- `CDPParser.parse_cdp_output(output, device_type)`. -/
def parse_cdp_output (output : String) (device_type : String) : List NbDict :=
  if output = "" then []
  else if pyStarts device_type.data "cisco".data then cdpCiscoSections output.data
  else if device_type = "arista_eos" then cdpCiscoSections output.data
  else []

/-! ### `LLDPParser.parse_lldp_output` (`app/parsers/lldp_parser.py`) -/

/-- `Management Address(?:\(\w+\))?:[\s]*([\d\.]+)`. -/
def matchLldpMgmt (s : List Char) : Option (List Char) := do
  let r ← litP "Management Address".data s
  let withParen : Option (List Char) := do
    let a ← litP "(".data r
    let (_, b) ← run1 isPyWord a
    let c ← litP ")".data b
    litP ":".data c
  let r3 ← match withParen with
    | some x => some x
    | none => litP ":".data r
  let (_, r4) := run0 isPyWs r3
  let (d, _) ← run1 isDigitDot r4
  some d

/-- `Port(?:\s+|\s+Description|\s+ID|\s+id):[\s]*([^\n]+)`. -/
def matchLldpPort (s : List Char) : Option (List Char) := do
  let r ← litP "Port".data s
  let (w, r2) := run0 isPyWs r
  if w = [] then none
  else
    let r3 ← match r2 with
      | ':' :: rest => some rest
      | _ =>
        match litP "Description:".data r2 with
        | some x => some x
        | none =>
          match litP "ID:".data r2 with
          | some x => some x
          | none => litP "id:".data r2
    matchWsStarRestOfLine r3

/-- `Time remaining:[\s]*(\d+) seconds`. -/
def matchLldpHoldtime (s : List Char) : Option (List Char) := do
  let r ← litP "Time remaining:".data s
  let (_, r2) := run0 isPyWs r
  let (d, r3) ← run1 isPyDigit r2
  let _ ← litP " seconds".data r3
  some d

/-- Parse one LLDP section (cisco branch regexes). -/
def lldpSection (sec : List Char) : NbDict :=
  { hostname := (reSearch (matchLitWsClass "System Name:".data isWordDotDash) sec).map
      String.mk
    ip_address := (reSearch matchLldpMgmt sec).map String.mk
    platform := (reSearch (matchLitRestOfLine "System Description:".data) sec).map
      (fun r => String.mk (pyStrip r))
    capabilities := (reSearch (matchLitRestOfLine "System Capabilities:".data) sec).map
      (fun r => String.mk (pyStrip r))
    local_interface := (reSearch (matchLitRestOfLine "Local Interface:".data) sec).map
      (fun r => String.mk (pyStrip r))
    remote_interface := (reSearch matchLldpPort sec).map
      (fun r => String.mk (pyStrip r))
    holdtime := (reSearch matchLldpHoldtime sec).map digitsToNat
    vlan := (reSearch (matchLitWsDigits "VLAN:".data) sec).map String.mk }

/-- cisco branch of `parse_lldp_output`: sections separated by `-{4,}|={4,}`,
keep a neighbor only when hostname and IP are both present. -/
def lldpCiscoSections (output : List Char) : List NbDict :=
  ((pySplitSections true output).filter (fun sec => pyStrip sec ≠ [])).foldl
    (fun acc sec =>
      let nb := lldpSection sec
      if nb.hostname.isSome && nb.ip_address.isSome then acc ++ [nb] else acc) []

/-- juniper branch: line-by-line columnar table, skipping header rows. -/
def lldpJuniperLines (output : List Char) : List NbDict :=
  (pySplitChar '\n' (pyStrip output)).foldl
    (fun acc line =>
      if pyContains line "Local Interface".data
          || pyContains line "Parent Interface".data
          || pyStrip line = [] then acc
      else
        match pySplitWs line with
        | p0 :: p1 :: p2 :: _ :: _ =>
          acc ++ [{ local_interface := some (String.mk p0)
                    remote_interface := some (String.mk p1)
                    hostname := some (String.mk p2) }]
        | _ => acc) []

/-- A quoted capture `LIT\"(.+?)\"` (arista patterns): at least one
non-newline character up to the closing quote. -/
def matchQuoted (pat : List Char) (s : List Char) : Option (List Char) := do
  let r ← litP pat s
  match r with
  | [] => none
  | c0 :: rest =>
    if c0 = '\n' then none
    else
      let cap := rest.takeWhile (fun c => c ≠ '"' && c ≠ '\n')
      match rest.drop cap.length with
      | '"' :: _ => some (c0 :: cap)
      | _ => none

/-- arista branch: sections separated by `-{4,}`, skipping the header
section; fields are quoted. -/
def lldpAristaSections (output : List Char) : List NbDict :=
  (((pySplitSections false output).drop 1).filter
      (fun sec => pyStrip sec ≠ [])).foldl
    (fun acc sec =>
      let nb : NbDict :=
        { local_interface :=
            (run1 (fun c => ¬ isPyWs c) sec).map (fun p => String.mk p.1)
          hostname := (reSearch (matchQuoted "System Name: \"".data) sec).map String.mk
          ip_address :=
            (reSearch (matchLitWsClass "Management Address: ".data isDigitDot) sec).map
            String.mk
          remote_interface := (reSearch (matchQuoted "Port ID: \"".data) sec).map
            String.mk
          platform := (reSearch (matchQuoted "System Description: \"".data) sec).map
            String.mk }
      if nb.hostname.isSome && nb.ip_address.isSome then acc ++ [nb] else acc) []

/-- `LLDPParser.parse_lldp_output(output, device_type)` — the only method the
class defines. -/
def parse_lldp_output (output : String) (device_type : String) : List NbDict :=
  if output = "" then []
  else if pyStarts device_type.data "cisco".data then lldpCiscoSections output.data
  else if device_type = "juniper_junos" then lldpJuniperLines output.data
  else if device_type = "arista_eos" then lldpAristaSections output.data
  else []

/-! ### `DeviceHandler._extract_hostname` (`app/device_handler.py`) -/

/-- `hostname\s+(\S+)` with `re.IGNORECASE` at the current position. -/
def matchHostnameWs (s : List Char) : Option (List Char) := do
  let r ← litCI "hostname".data s
  let (_, r2) ← run1 isPyWs r
  let (tok, _) ← run1 (fun c => ¬ isPyWs c) r2
  some tok

/-- `Hostname:\s+(\S+)` (juniper form) at the current position. -/
def matchJuniperHostname (s : List Char) : Option (List Char) := do
  let r ← litP "Hostname:".data s
  let (_, r2) ← run1 isPyWs r
  let (tok, _) ← run1 (fun c => ¬ isPyWs c) r2
  some tok

/-- `hostname[:\s]+(\S+)` with `re.IGNORECASE` at the current position.  The
greedy `[:\s]+` backtracks when nothing non-whitespace follows the run, in
which case a trailing colon of the run can serve as the `\S+` capture. -/
def matchHostnameGeneric (s : List Char) : Option (List Char) := do
  let r ← litCI "hostname".data s
  let (w, r2) ← run1 (fun c => c = ':' || isPyWs c) r
  match r2 with
  | c :: _ =>
    if isPyWs c then none
    else some (r2.takeWhile (fun c => ¬ isPyWs c))
  | [] =>
    let w2 := w.reverse.dropWhile isPyWs
    if w2.length ≥ 2 then some [':'] else none

/-- The device types given the trimmed-output treatment by
`_extract_hostname`. -/
def ciscoLikeTypes : List String := ["cisco_ios", "cisco_nxos", "arista_eos", "cisco_xe"]

/-- `DeviceHandler._extract_hostname(output, device_type)`. -/
def extract_hostname (output : String) (device_type : String) : Option String :=
  if output = "" then none
  else
    let o := output.data
    let r1 : Option (List Char) :=
      if "hostname".data <:+: pyLower o then reSearch matchHostnameWs o else none
    match r1 with
    | some h => some (String.mk h)
    | none =>
      let ciscoHit : Option (List Char) :=
        if device_type ∈ ciscoLikeTypes then
          if ¬ ("^".data <+: o) ∧ ¬ ("% Invalid".data <:+: o) then some (pyStrip o)
          else none
        else none
      match ciscoHit with
      | some h => some (String.mk h)
      | none =>
        let junHit : Option (List Char) :=
          if device_type = "juniper_junos" then reSearch matchJuniperHostname o
          else none
        match junHit with
        | some h => some (String.mk h)
        | none =>
          match reSearch matchHostnameGeneric o with
          | some h => some (String.mk h)
          | none =>
            let clean := pyStrip o
            if clean ≠ [] ∧ ¬ ("^".data <+: clean) ∧ ¬ ("% Invalid".data <:+: clean)
            then some (String.mk clean)
            else none

example : extract_hostname "R1\n" "cisco_ios" = some "R1" := by decide
example : extract_hostname "^\n% Invalid input detected" "cisco_ios" = none := by decide
example : extract_hostname "hostname core-sw1" "cisco_ios" = some "core-sw1" := by decide
example : extract_hostname "Hostname: R7" "juniper_junos" = some "R7" := by decide

/-! ### `DeviceHandler.get_device_neighbors` and `get_device_config`

The transport (connect / `send_command`) is modelled by an environment
record carrying the detected device type and the outputs the device returns
for each command; a failed connection is the `connectOk = false` case. -/

/-- I/O environment for one `get_device_neighbors` / `get_device_config`
call. -/
structure ConnEnv where
  connectOk : Bool
  detectedType : String
  cdpOutput : String
  lldpOutput : String
  configOutput : String
deriving Repr, DecidableEq

/-- The methods defined by `LLDPParser` (`app/parsers/lldp_parser.py`):
only `parse_lldp_output`. -/
def lldpParserMethods : List String := ["parse_lldp_output"]

/-- Python attribute lookup `lldp_parser.<name>(...)`: dispatches to the
defined method or raises `AttributeError`. -/
def callLldpParser (name : String) (output : String) (device_type : String) :
    Except String (List NbDict) :=
  if name = "parse_lldp_output" then .ok (parse_lldp_output output device_type)
  else .error ("AttributeError: LLDPParser has no attribute " ++ name)

/-- The neighbors contributed by the CDP branch of `get_device_neighbors`. -/
def cdpContribution (env : ConnEnv) (protocols : List String) : List NbDict :=
  if env.connectOk ∧ "cdp" ∈ protocols then
    parse_cdp_output env.cdpOutput env.detectedType
  else []

/-- `DeviceHandler.get_device_neighbors(ip, credential, protocols, ...)`:
connect, run the CDP branch (which calls `parse_cdp_output`), then the LLDP
branch — whose parser invocation is written `lldp_parser.parse(...)` in the
source; the exception handler returns whatever was accumulated so far. -/
def get_device_neighbors (env : ConnEnv) (protocols : List String) : List NbDict :=
  if ¬ env.connectOk then []
  else
    let neighbors : List NbDict := []
    let neighbors :=
      if "cdp" ∈ protocols then
        let cdp_neighbors := parse_cdp_output env.cdpOutput env.detectedType
        if cdp_neighbors ≠ [] then neighbors ++ cdp_neighbors else neighbors
      else neighbors
    if "lldp" ∈ protocols then
      match callLldpParser "parse" env.lldpOutput env.detectedType with
      | .ok lldp_neighbors =>
        if lldp_neighbors ≠ [] then neighbors ++ lldp_neighbors else neighbors
      | .error _ => neighbors
    else neighbors

/-- The methods defined by `ConfigParser` (`app/parsers/config_parser.py`). -/
def configParserMethods : List String :=
  ["parse_config", "_extract_hostname", "_extract_interfaces", "_extract_vlans",
   "_extract_routing", "_extract_acls"]

/-- Result record of `get_device_config`.  The parsed payload is `Unit`
because the parse step never succeeds (see `C10`): `parse` is not among
`configParserMethods`, so its value is irrelevant to the embedding. -/
structure ConfigResult where
  raw_config : Option String
  parsed_config : Option Unit
deriving Repr, DecidableEq

/-- `DeviceHandler.get_device_config(ip, credential, ...)`: connect, fetch
the running config into `raw_config`, then invoke `config_parser.parse(...)`;
the attribute lookup raises `AttributeError` (the class defines
`parse_config`), and the handler returns the partially filled result. -/
def get_device_config (env : ConnEnv) : ConfigResult :=
  if ¬ env.connectOk then { raw_config := none, parsed_config := none }
  else
    let raw := some env.configOutput
    if "parse" ∈ configParserMethods then
      -- would hold the parsed dictionary; unreachable, since `parse` is
      -- decidably not a `ConfigParser` method
      { raw_config := raw, parsed_config := some () }
    else
      -- AttributeError caught by the handler: return the partial result
      { raw_config := raw, parsed_config := none }

/-! ### `DeviceHandler._parse_interfaces` (`app/device_handler.py`, show-interfaces parser) -/

/-- Literal followed directly by a captured class run (`LIT(CLS+)`). -/
def matchLitClass (pat : List Char) (cls : Char → Bool) (s : List Char) :
    Option (List Char) := do
  let r ← litP pat s
  let (d, _) ← run1 cls r
  some d

/-- `LIT(.+)`: literal then the non-empty rest of the line. -/
def matchLitLine (pat : List Char) (s : List Char) : Option (List Char) := do
  let r ← litP pat s
  let (d, _) ← run1 (· ≠ '\n') r
  some d

/-- `LIT(.+?)\n`: literal then a non-empty lazy capture up to the next
newline, which must exist. -/
def matchLitToNewline (pat : List Char) (s : List Char) : Option (List Char) := do
  let r ← litP pat s
  let cap := r.takeWhile (· ≠ '\n')
  if cap = [] then none
  else match r.drop cap.length with
    | '\n' :: _ => some cap
    | _ => none

/-- Does `LIT\d+` match at this position? -/
def litNumAt (pat : List Char) (s : List Char) : Bool :=
  match litP pat s with
  | none => false
  | some r => !(r.takeWhile isPyDigit).isEmpty

/-- Does `LIT\d+\/\d+` match at this position? -/
def litIntfAt (pat : List Char) (s : List Char) : Bool :=
  match litP pat s with
  | none => false
  | some r =>
    match run1 isPyDigit r with
    | none => false
    | some (_, r2) =>
      match r2 with
      | '/' :: r3 => !(r3.takeWhile isPyDigit).isEmpty
      | _ => false

/-- Does `\w+LIT\d+\/\d+` match at this position (some non-empty word-run
before the literal)? -/
def wordThenIntfAt (pat : List Char) (s : List Char) : Bool :=
  go (s.takeWhile isPyWord).length
where
  go : Nat → Bool
    | 0 => false
    | k + 1 => litIntfAt pat (s.drop (k + 1)) || go k

/-- The zero-width lookahead of the cisco `re.split` in `_parse_interfaces`:
`(?=\w+Ethernet\d+\/\d+|\w+GigabitEthernet\d+\/\d+|\w+Serial\d+\/\d+|Loopback\d+)`. -/
def ciscoIntfLookahead (s : List Char) : Bool :=
  wordThenIntfAt "Ethernet".data s || wordThenIntfAt "GigabitEthernet".data s
    || wordThenIntfAt "Serial".data s || litNumAt "Loopback".data s

/-- The arista lookahead `(?=\w+Ethernet\d+\/\d+|Management\d+)`. -/
def aristaIntfLookahead (s : List Char) : Bool :=
  wordThenIntfAt "Ethernet".data s || litNumAt "Management".data s

/-- `re.split` on a zero-width lookahead: a piece boundary at every position
where the lookahead matches. -/
def splitLAGo (look : List Char → Bool) : Nat → List Char → List (List Char)
  | 0, t => [t]
  | _, [] => [[]]
  | fuel + 1, c :: rest =>
    if look rest then [c] :: splitLAGo look fuel rest
    else match splitLAGo look fuel rest with
      | [] => [[c]]
      | h :: t => (c :: h) :: t

/-- `re.split(r"(?=...)", s)`. -/
def splitLookahead (look : List Char → Bool) (s : List Char) : List (List Char) :=
  if look s then [] :: splitLAGo look s.length s else splitLAGo look s.length s

/-- Parse one cisco/arista `show interfaces` section (shared field layout;
`status` selects the status regex: cisco `line protocol is (\w+)`, arista
`is (\w+), line protocol is (\w+)` keeping group 2). -/
def matchAristaStatus (s : List Char) : Option (List Char) := do
  let r ← litP "is ".data s
  let (_, r2) ← run1 isPyWord r
  let r3 ← litP ", line protocol is ".data r2
  let (d, _) ← run1 isPyWord r3
  some d

/-- Build one interface from a cisco section of `_parse_interfaces`. -/
def ciscoIntfSection (sec : List Char) : Option DeviceInterface :=
  if pyStrip sec = [] then none
  else
    match run1 (fun c => ¬ isPyWs c) sec with
    | none => none
    | some (name, _) =>
      some { name := String.mk name
             ip_address :=
               (reSearch (matchLitClass "Internet address is ".data isDigitDot) sec).map
               String.mk
             description := (reSearch (matchLitLine "Description: ".data) sec).map
               (fun r => String.mk (pyStrip r))
             status := (reSearch (matchLitClass "line protocol is ".data isPyWord)
               sec).map String.mk }

/-- Build one interface from an arista section of `_parse_interfaces`. -/
def aristaIntfSection (sec : List Char) : Option DeviceInterface :=
  if pyStrip sec = [] then none
  else
    match run1 (fun c => ¬ isPyWs c) sec with
    | none => none
    | some (name, _) =>
      some { name := String.mk name
             ip_address := (reSearch (matchLitClass "IP address: ".data isDigitDot)
               sec).map String.mk
             description := (reSearch (matchLitToNewline "Description: ".data) sec).map
               (fun r => String.mk (pyStrip r))
             status := (reSearch matchAristaStatus sec).map String.mk }

/-- `Physical interface: (\S+), `: the greedy `\S+` backtracks to leave the
literal `", "`. -/
def matchJuniperIntf (s : List Char) : Option (List Char × List Char) := do
  let r ← litP "Physical interface: ".data s
  let tok := r.takeWhile (fun c => ¬ isPyWs c)
  if tok = [] then none else go r tok.length
where
  go (r : List Char) : Nat → Option (List Char × List Char)
    | 0 => none
    | k + 1 =>
      match litP ", ".data (r.drop (k + 1)) with
      | some rest => some (r.take (k + 1), rest)
      | none => go r k

/-- The juniper branch of `_parse_interfaces`: iterate matches; each status
section runs from the match end to the next `Physical interface:` occurrence
(`str.find` returning `-1` makes the Python slice drop the final
character). -/
def juniperIntfGo : Nat → List Char → List DeviceInterface
  | 0, _ => []
  | _, [] => []
  | fuel + 1, s@(_ :: tail) =>
    match matchJuniperIntf s with
    | some (name, rest) =>
      let sect :=
        match afterFirst "Physical interface:".data rest with
        | some suffix => rest.take (rest.length - suffix.length - 19)
        | none => rest.dropLast
      { name := String.mk name
        status := if pyContains sect "Enabled".data then some "up" else some "down"
        ip_address := (reSearch (matchLitClass "Local: ".data isDigitDot) sect).map
          String.mk
        description := (reSearch (matchLitToNewline "Description: ".data) sect).map
          (fun r => String.mk (pyStrip r))
        : DeviceInterface } :: juniperIntfGo fuel rest
    | none => juniperIntfGo fuel tail

/-- `DeviceHandler._parse_interfaces(output, device_type)`: the
show-interfaces fallback parser.  Note that no branch ever assigns
`subnet_mask`. -/
def parse_interfaces (output : String) (device_type : String) : List DeviceInterface :=
  if output = "" then []
  else if device_type ∈ ["cisco_ios", "cisco_nxos", "cisco_xe"] then
    (splitLookahead ciscoIntfLookahead output.data).filterMap ciscoIntfSection
  else if device_type = "juniper_junos" then
    juniperIntfGo output.data.length output.data
  else if device_type = "arista_eos" then
    (splitLookahead aristaIntfLookahead output.data).filterMap aristaIntfSection
  else []

/-! ### Seed introspection (`app/discovery_methods/seed_device_helper.py`) -/

/-- Decimal rendering of a `Nat` (for dotted masks). -/
def natToDec (n : Nat) : List Char :=
  go (n + 1) n []
where
  go : Nat → Nat → List Char → List Char
    | 0, _, acc => acc
    | fuel + 1, n, acc =>
      if n < 10 then Char.ofNat (48 + n) :: acc
      else go fuel (n / 10) (Char.ofNat (48 + n % 10) :: acc)

/-- `(0xffffffff << (32 - P)) & 0xffffffff`: the mask integer of a /P. -/
def maskInt (p : Nat) : Nat := (4294967295 <<< (32 - p)) % 4294967296

/-- Dotted rendering of a 32-bit address/mask integer. -/
def dottedQuad (m : Nat) : String :=
  String.mk (natToDec (m >>> 24 % 256) ++ '.' :: natToDec (m >>> 16 % 256)
    ++ '.' :: natToDec (m >>> 8 % 256) ++ '.' :: natToDec (m % 256))

/-- `ipaddress.IPv4Network(f"0.0.0.0/{prefix}")` accepts the captured digits
when they carry no leading zero and denote at most 32. -/
def pyPrefixValid (d : List Char) : Bool :=
  d ≠ [] && (d = ['0'] || d.head? ≠ some '0') && digitsToNat d ≤ 32

/-- Convert captured prefix digits to a dotted mask, `none` when
`IPv4Network` would raise. -/
def prefixDigitsToMask (d : List Char) : Option String :=
  if pyPrefixValid d then some (dottedQuad (maskInt (digitsToNat d))) else none

/-- Python truthiness of an optional string field. -/
def optTruthy : Option String → Bool
  | some s => s ≠ ""
  | none => false

/-- The /32 mask used by the loopback and guardrail defaults. -/
def mask32 : String := "255.255.255.255"

/-- Pattern 1 of the mask extraction:
`f"{intf_name}.*?Internet address is.*?/(\d+)"` with `re.DOTALL`. -/
def seedMaskSlash (name detailed : List Char) : Option (List Char) :=
  (afterFirst name detailed).bind fun t1 =>
    (afterFirst "Internet address is".data t1).bind fun t2 =>
      reSearch
        (fun u =>
          match u with
          | '/' :: rest => (run1 isPyDigit rest).map (·.1)
          | _ => none) t2

/-- Pattern 2:
`f"{intf_name}.*?Internet address is\s+(A.B.C.D)\s+(A.B.C.D)"` with
`re.DOTALL`; the second quad (the mask) is kept. -/
def seedMaskPair (name detailed : List Char) : Option (List Char) :=
  (afterFirst name detailed).bind fun t1 =>
    reSearch
      (fun u => do
        let r ← litP "Internet address is".data u
        let (_, r2) ← run1 isPyWs r
        let (_, r3) ← matchQuad r2
        let (_, r4) ← run1 isPyWs r3
        let (q2, _) ← matchQuad r4
        some q2) t1

/-- `f"{intf_name}.*?Description: (.*?)\n"` with `re.DOTALL`. -/
def seedDescSearch (name detailed : List Char) : Option (List Char) :=
  (afterFirst name detailed).bind fun t1 =>
    (afterFirst "Description: ".data t1).bind fun t2 =>
      if '\n' ∈ t2 then some (t2.takeWhile (· ≠ '\n')) else none

/-- The last-resort guardrail of `introspect_seed_devices`: any IP-bearing
interface still lacking a mask becomes /32. -/
def applyGuardrail (i : DeviceInterface) : DeviceInterface :=
  if ¬ optTruthy i.subnet_mask ∧ optTruthy i.ip_address then
    { i with subnet_mask := some mask32 }
  else i

/-- The mask-extraction steps of the loop body (patterns 1-3 and the
prefix-conversion try/except), applied to the base interface. -/
def seedMaskSteps (name detailed : List Char) (i0 : DeviceInterface) : DeviceInterface :=
  let maskMatch := seedMaskSlash name detailed
  let i1 :=
    if maskMatch = none then
      match seedMaskPair name detailed with
      | some m => { i0 with subnet_mask := some (String.mk m) }
      | none => i0
    else i0
  let i2 :=
    if maskMatch = none ∧ ¬ optTruthy i1.subnet_mask
        ∧ pyStarts (pyLower name) "loopback".data then
      { i1 with subnet_mask := some mask32 }
    else i1
  match maskMatch with
  | some d =>
    match prefixDigitsToMask d with
    | some m => { i2 with subnet_mask := some m }
    | none =>
      if pyStarts (pyLower name) "loopback".data then
        { i2 with subnet_mask := some mask32 }
      else i2
  | none => i2

/-- The description extraction, performed after the guardrail. -/
def applyDescStep (name detailed : List Char) (i : DeviceInterface) : DeviceInterface :=
  match seedDescSearch name detailed with
  | some d => { i with description := some (String.mk (pyStrip d)) }
  | none => i

/-- Build one interface from a line of `show ip interface brief` plus the
detailed `show interfaces` output, following the loop body of
`introspect_seed_devices` (lines 127-187). -/
def buildSeedIntf (detailed : List Char) (line : List Char) : Option DeviceInterface :=
  match pySplitWs line with
  | p0 :: p1 :: restParts =>
    let ip : Option String :=
      if String.mk p1 = "unassigned" ∨ String.mk p1 = "0.0.0.0" then none
      else some (String.mk p1)
    let status := match restParts.drop 2 with
      | p4 :: _ => if String.mk p4 = "up" then "up" else "down"
      | [] => "down"
    let i0 : DeviceInterface :=
      { name := String.mk p0, ip_address := ip, status := some status }
    some (applyDescStep p0 detailed (applyGuardrail (seedMaskSteps p0 detailed i0)))
  | _ => none

/-- The interface list a seed device contributes in
`introspect_seed_devices`: header line skipped, one interface per
sufficiently long line. -/
def parseSeedInterfaces (brief detailed : String) : List DeviceInterface :=
  let lines := pySplitChar '\n' (pyStrip brief.data)
  if lines.length > 1 then (lines.drop 1).filterMap (buildSeedIntf detailed.data)
  else []

/-! ### `parse_route_output` (`seed_device_helper.py`, lines 314-374) -/

/-- `[CL]\s+(\d+\.\d+\.\d+\.\d+)/(\d+)`. -/
def matchRouteP1 (s : List Char) : Option ((List Char × List Char) × List Char) := do
  let r0 ← match s with
    | c :: rest => if c = 'C' || c = 'L' then some rest else none
    | [] => none
  let (_, r1) ← run1 isPyWs r0
  let (q, r2) ← matchQuad r1
  let r3 ← litP ['/'] r2
  let (d, r4) ← run1 isPyDigit r3
  some ((q, d), r4)

/-- `[CL]\s+(\d+\.\d+\.\d+\.\d+)\s+is\s+\w+\s+connected`. -/
def matchRouteP2 (s : List Char) : Option (List Char × List Char) := do
  let r0 ← match s with
    | c :: rest => if c = 'C' || c = 'L' then some rest else none
    | [] => none
  let (_, r1) ← run1 isPyWs r0
  let (q, r2) ← matchQuad r1
  let (_, r3) ← run1 isPyWs r2
  let r4 ← litP "is".data r3
  let (_, r5) ← run1 isPyWs r4
  let (_, r6) ← run1 isPyWord r5
  let (_, r7) ← run1 isPyWs r6
  let r8 ← litP "connected".data r7
  some (q, r8)

/-- `(\d+\.\d+\.\d+\.\d+)/(\d+)\s+is\s+\w+\s+connected`. -/
def matchRouteP3 (s : List Char) : Option ((List Char × List Char) × List Char) := do
  let (q, r2) ← matchQuad s
  let r3 ← litP ['/'] r2
  let (d, r4) ← run1 isPyDigit r3
  let (_, r5) ← run1 isPyWs r4
  let r6 ← litP "is".data r5
  let (_, r7) ← run1 isPyWs r6
  let (_, r8) ← run1 isPyWord r7
  let (_, r9) ← run1 isPyWs r8
  let r10 ← litP "connected".data r9
  some ((q, d), r10)

/-- Set insertion (Python `set.add`, membership semantics with insertion
order). -/
def addSub (l : List String) (s : String) : List String :=
  if s ∈ l then l else l ++ [s]

/-- `parse_route_output(output)`: three patterns in order, each match adding
its subnet and the host `/32`; a prefix-less connected line is assumed
`/24`.  When nothing matched and the output mentions `connected`, every
dotted quad (except `0.0.0.0` / `255.255.255.255`) is added as `/32`. -/
def parse_route_output (output : String) : List String :=
  let o := output.data
  let fuel := o.length
  let s1 := (reFindAll matchRouteP1 fuel o).foldl
    (fun acc qd =>
      addSub (addSub acc (String.mk (qd.1 ++ '/' :: qd.2)))
        (String.mk (qd.1 ++ "/32".data))) []
  let s2 := (reFindAll matchRouteP2 fuel o).foldl
    (fun acc q =>
      addSub (addSub acc (String.mk (q ++ "/24".data)))
        (String.mk (q ++ "/32".data))) s1
  let s3 := (reFindAll matchRouteP3 fuel o).foldl
    (fun acc qd =>
      addSub (addSub acc (String.mk (qd.1 ++ '/' :: qd.2)))
        (String.mk (qd.1 ++ "/32".data))) s2
  if s3 = [] ∧ pyContains o "connected".data then
    (reFindAll matchQuad fuel o).foldl
      (fun acc q =>
        if String.mk q ≠ "0.0.0.0" ∧ String.mk q ≠ "255.255.255.255" then
          addSub acc (String.mk (q ++ "/32".data))
        else acc) []
  else s3

/-! ### `NeighborDiscovery._build_topology` (`neighbor_discovery.py`, lines 357-447)

`result.devices` is a dict ip → Device; here it is an association list in
insertion order.  Only the fields `_build_topology` reads are carried.  The
`connected_to` interface annotation performed after each insertion mutates
the device's interface list only and never feeds back into the emitted
`topology` / `connections`, so it is not modelled. -/

/-- The slice of `models.Device` that `_build_topology` reads. -/
structure TDevice where
  ip_address : String
  hostname : Option String := none
  discovery_status : String := "pending"
  neighbors : List NbDict := []
deriving Repr, DecidableEq

/-- Dict lookup on an association list. -/
def alookup (l : List (String × α)) (k : String) : Option α :=
  (l.find? (fun p => p.1 == k)).map (·.2)

/-- Dict assignment (replace or append). -/
def aset (l : List (String × α)) (k : String) (v : α) : List (String × α) :=
  if (l.find? (fun p => p.1 == k)).isSome then
    l.map (fun p => if p.1 == k then (k, v) else p)
  else l ++ [(k, v)]

/-- In-place update of an existing key's value. -/
def aupdate (l : List (String × α)) (k : String) (f : α → α) : List (String × α) :=
  l.map (fun p => if p.1 == k then (p.1, f p.2) else p)

/-- The hostname-validity test of `_build_topology` (and of the dedup logic
in `process_device`): truthy, not a `^...` echo, no `Invalid input`. -/
def validHostname : Option String → Bool
  | some h => h ≠ "" && !pyStarts h.data "^".data && !pyContains h.data "Invalid input".data
  | none => false

/-- First pass of `_build_topology`: canonical IP per discovered device
(`canonical_ips`), driven by `hostname_to_canonical_ip`. -/
def canonicalPass (devices : List (String × TDevice)) : List (String × String) :=
  (devices.foldl
    (fun (st : List (String × String) × List (String × String)) p =>
      let canon := st.1
      let h2c := st.2
      if p.2.discovery_status ≠ "discovered" then st
      else if validHostname p.2.hostname then
        match p.2.hostname with
        | some hn =>
          let h2c2 := if (alookup h2c hn).isSome then h2c else aset h2c hn p.1
          (aset canon p.1 ((alookup h2c2 hn).getD p.1), h2c2)
        | none => (aset canon p.1 p.1, h2c)
      else (aset canon p.1 p.1, h2c))
    ([], [])).1

/-- The reverse of a connection (endpoints and ports swapped). -/
def revConn (c : Conn) : Conn :=
  { source := c.target, target := c.source
    source_port := c.target_port, target_port := c.source_port }

/-- The guarded insertion of `_build_topology`: scan the existing list for
the connection or its reverse and skip the insertion when either is
present. -/
def insertConn (conns : List Conn) (c : Conn) : List Conn :=
  if conns.any (fun e =>
      decide (e = c) ||
        decide (e.source = c.target ∧ e.target = c.source ∧
          e.source_port = c.target_port ∧ e.target_port = c.source_port)) then
    conns
  else conns ++ [c]

/-- State threaded through the second pass: the adjacency map and the
connection list. -/
structure TopoState where
  topology : List (String × List String)
  connections : List Conn
deriving Repr, DecidableEq

/-- Per-neighbor step of `_build_topology`: adjacency update plus guarded
connection insertion. -/
def procNeighbor (devIps : List String) (canon : List (String × String))
    (cip : String) (st : TopoState) (nb : NbDict) : TopoState :=
  match nb.ip_address with
  | none => st
  | some nip =>
    let ncanon := (alookup canon nip).getD nip
    let topo :=
      if nip ∈ devIps ∧ ncanon ∉ (alookup st.topology cip).getD [] then
        aupdate st.topology cip (fun l => l ++ [ncanon])
      else st.topology
    let conn : Conn :=
      { source := cip, target := ncanon
        source_port := nb.local_interface.getD ""
        target_port := nb.remote_interface.getD "" }
    { topology := topo, connections := insertConn st.connections conn }

/-- Per-device step of the second pass. -/
def procDevice (devIps : List String) (canon : List (String × String))
    (st : TopoState) (p : String × TDevice) : TopoState :=
  if p.2.discovery_status ≠ "discovered" then st
  else
    let cip := (alookup canon p.1).getD p.1
    let topo0 :=
      if (alookup st.topology cip).isSome then st.topology
      else st.topology ++ [(cip, [])]
    p.2.neighbors.foldl (procNeighbor devIps canon cip)
      { topology := topo0, connections := st.connections }

/-- `NeighborDiscovery._build_topology()` as a pure function of the device
map. -/
def build_topology (devices : List (String × TDevice)) : TopoState :=
  let canon := canonicalPass devices
  let devIps := devices.map (·.1)
  devices.foldl (procDevice devIps canon) { topology := [], connections := [] }

/-- The emitted connection list. -/
def buildTopologyConnections (devices : List (String × TDevice)) : List Conn :=
  (build_topology devices).connections

/-! ### `NeighborDiscovery.process_device` (`neighbor_discovery.py`, lines 173-348)

Network I/O is modelled by an environment giving, per credential index, the
outcome of each `device_handler` call.  An exception escaping the try body
is modelled as occurring at the start of the iteration; wherever it occurs,
the handler sets the same `failed` status and error message and continues
with the next credential.  The identity-table bookkeeping (lines 241-292)
updates walk-level state and is modelled in the walk transition system
below; the hostname re-assignment from `parsed_config` (lines 244-247)
cannot fire because the parse step of `get_device_config` never populates
`parsed_config` on this path. -/

/-- One credential dictionary (username/password/auth_type keys;
`auth_type` read with default `"password"`). -/
structure CredInfo where
  username : String
  password : String := ""
  auth_type : Option String := none
deriving Repr, DecidableEq

/-- The `device_info` dictionary returned by `get_device_info` (only keys
that `process_device` copies onto the device). -/
structure PDInfo where
  hostname : Option String := none
  platform : Option String := none
  os_version : Option String := none
  model : Option String := none
  serial_number : Option String := none
  interfaces : List DeviceInterface := []
deriving Repr, DecidableEq

/-- The slice of `models.Device` that `process_device` writes. -/
structure PDev where
  ip_address : String
  device_type : Option String := none
  hostname : Option String := none
  platform : Option String := none
  os_version : Option String := none
  model : Option String := none
  serial_number : Option String := none
  interfaces : List DeviceInterface := []
  neighbors : List NbDict := []
  config : Option String := none
  parsed_config : Option Unit := none
  discovery_status : String := "pending"
  discovery_error : Option String := none
  credentials_used : Option (String × String × String) := none
deriving Repr, DecidableEq

/-- Per-credential I/O outcomes for one `process_device` run. -/
structure PDEnv where
  portOpen : Bool
  autodetect : Nat → Option String
  raised : Nat → Option String
  info : Nat → Option PDInfo
  configRes : Nat → ConfigResult
  neighborsRes : Nat → List NbDict

/-- `DeviceHandler.detect_device_type`: returns `None` whenever the
transport port is not open (lines 96-101), otherwise the autodetect
result. -/
def detect_device_type (env : PDEnv) (i : Nat) : Option String :=
  if env.portOpen then env.autodetect i else none

/-- One iteration of the credential loop; the `Bool` is the `break` taken
after a successful commit. -/
def credStep (env : PDEnv) (port : Nat) (d : PDev) (i : Nat) (cred : CredInfo) :
    PDev × Bool :=
  match env.raised i with
  | some msg =>
    ({ d with discovery_status := "failed", discovery_error := some msg }, false)
  | none =>
    match detect_device_type env i with
    | none => (d, false)
    | some dt =>
      let d := { d with device_type := some dt }
      match env.info i with
      | none => (d, false)
      | some inf =>
        let d := { d with
          hostname := match inf.hostname with | some h => some h | none => d.hostname
          platform := match inf.platform with | some v => some v | none => d.platform
          os_version := match inf.os_version with | some v => some v | none => d.os_version
          model := match inf.model with | some v => some v | none => d.model
          serial_number :=
            match inf.serial_number with | some v => some v | none => d.serial_number
          interfaces := inf.interfaces }
        let d := { d with
          discovery_status := "discovered"
          credentials_used :=
            some (cred.username, cred.auth_type.getD "password",
              String.mk (natToDec port)) }
        let cfg := env.configRes i
        let d := { d with
          config := cfg.raw_config, parsed_config := cfg.parsed_config }
        let ns := env.neighborsRes i
        let d := if ns ≠ [] then { d with neighbors := ns } else d
        (d, true)

/-- The credential try-loop. -/
def processLoop (env : PDEnv) (port : Nat) :
    List CredInfo → Nat → PDev → PDev
  | [], _, d => d
  | c :: cs, i, d =>
    let r := credStep env port d i c
    if r.2 then r.1 else processLoop env port cs (i + 1) r.1

/-- The commit after the loop (lines 339-344): everything that is not
`discovered` becomes `failed`, with a default error string. -/
def finalizeDevice (d : PDev) : PDev :=
  if d.discovery_status ≠ "discovered" then
    if ¬ optTruthy d.discovery_error then
      { d with discovery_status := "failed"
               discovery_error := some "Failed to authenticate with any credentials" }
    else { d with discovery_status := "failed" }
  else d

/-- `NeighborDiscovery.process_device(ip, port, depth)` on a freshly created
device: `none` when the IP matches an exclusion pattern (early return,
device map untouched); `excludePred` models `re.match` over the configured
exclusion regexes. -/
def process_device (excludePred : String → Bool) (creds : List CredInfo)
    (env : PDEnv) (ip : String) (port : Nat) : Option PDev :=
  if excludePred ip then none
  else some (finalizeDevice (processLoop env port creds 0 { ip_address := ip }))

/-! ### The neighbor-walk work queue (`NeighborDiscovery.run` / `_worker`)

A transition system over the queue, the visited set and the ip→hostname
identity table.  A `process` step's `ns` parameter is the list of neighbor
IPs that pass the filters of lines 314-325 (the enqueue loop); `idAdds` are
the identity-table entries registered during the dedup bookkeeping. -/

/-- A work-queue entry `(ip, port, depth)`. -/
structure QEntry where
  ip : String
  port : Nat
  depth : Nat
deriving Repr, DecidableEq

/-- The shared walk state. -/
structure WalkState where
  queue : List QEntry
  visited : List String
  ipToHostname : List (String × String)
deriving Repr, DecidableEq

/-- `DiscoveryConfig.parse_seed_device`: `HOST` or `HOST:PORT`
(`int` failure propagates as an exception, modelled as `none`). -/
def parse_seed_device (device : String) : Option (String × Nat) :=
  if ':' ∈ device.data then
    let before := device.data.takeWhile (· ≠ ':')
    let after := device.data.drop (before.length + 1)
    let digits := pyStrip after
    if digits ≠ [] ∧ digits.all isPyDigit then
      some (String.mk before, digitsToNat digits)
    else none
  else some (device, 22)

/-- `run()` lines 61-64: every parsed seed is enqueued at depth 0. -/
def initWalkState (seeds : List (String × Nat)) : WalkState :=
  { queue := seeds.map (fun p => { ip := p.1, port := p.2, depth := 0 })
    visited := []
    ipToHostname := [] }

/-- One `_worker` iteration.  `drop` covers the visited/max-depth/dedup skip
branches; `process` runs `process_device`, which enqueues the filtered
neighbor IPs at `depth + 1` only when `depth < maxDepth` (line 313). -/
inductive WalkStep (maxDepth : Nat) : WalkState → WalkState → Prop
  | drop (s : WalkState) (e : QEntry) (rest : List QEntry) :
      s.queue = e :: rest →
      (maxDepth < e.depth ∨ e.ip ∈ s.visited ∨ (alookup s.ipToHostname e.ip).isSome) →
      WalkStep maxDepth s
        { queue := rest, visited := s.visited, ipToHostname := s.ipToHostname }
  | process (s : WalkState) (e : QEntry) (rest : List QEntry)
      (ns : List String) (idAdds : List (String × String)) :
      s.queue = e :: rest →
      e.depth ≤ maxDepth →
      e.ip ∉ s.visited →
      alookup s.ipToHostname e.ip = none →
      WalkStep maxDepth s
        { queue := rest ++
            (if e.depth < maxDepth then
              ns.map (fun ip => { ip := ip, port := 22, depth := e.depth + 1 })
            else [])
          visited := e.ip :: s.visited
          ipToHostname := s.ipToHostname ++ idAdds }

/-- The states the walk can reach from the initial queue. -/
inductive WalkReachable (maxDepth : Nat) (seeds : List (String × Nat)) :
    WalkState → Prop
  | init : WalkReachable maxDepth seeds (initWalkState seeds)
  | step (s s2 : WalkState) : WalkReachable maxDepth seeds s →
      WalkStep maxDepth s s2 → WalkReachable maxDepth seeds s2

/-! ### `IPReachabilityDiscovery.discover_reachable_hosts`
(`ip_reachability.py`, lines 147-217) -/

/-- One emitted reachability record. -/
structure ScanRecord where
  ip : String
  icmp_reachable : Bool
  open_ports : List Nat
deriving Repr, DecidableEq

/-- The network's behaviour during a scan. -/
structure NetProbeEnv where
  icmpAlive : String → Bool
  tcpOpen : String → Nat → Bool

/-- One IPv4 octet (`ipaddress` rejects leading zeros and values over
255). -/
def parseOctet (s : List Char) : Option Nat :=
  if s ≠ [] ∧ s.all isPyDigit ∧ (s = ['0'] ∨ s.head? ≠ some '0')
      ∧ digitsToNat s ≤ 255 then
    some (digitsToNat s)
  else none

/-- Parse `A.B.C.D` to its 32-bit value. -/
def parseIPv4 (s : List Char) : Option Nat :=
  match pySplitChar '.' s with
  | [a, b, c, d] => do
    let va ← parseOctet a
    let vb ← parseOctet b
    let vc ← parseOctet c
    let vd ← parseOctet d
    some (va * 16777216 + vb * 65536 + vc * 256 + vd)
  | _ => none

/-- `ipaddress.ip_network(s, strict=False)`: `A.B.C.D/P` (host bits
masked) or a bare address as /32; `none` models the raised exception. -/
def parse_ip_network (s : String) : Option (Nat × Nat) :=
  match pySplitChar '/' s.data with
  | [a] => (parseIPv4 a).map (fun addr => (addr, 32))
  | [a, p] => do
    let addr ← parseIPv4 a
    if pyPrefixValid p then
      let pv := digitsToNat p
      some (addr - addr % 2 ^ (32 - pv), pv)
    else none
  | _ => none

/-- `network.num_addresses`. -/
def numAddresses (p : Nat) : Nat := 2 ^ (32 - p)

/-- `network.hosts()`: all usable host addresses — network and broadcast
excluded except for /31 and /32 networks. -/
def hostsOf (base p : Nat) : List Nat :=
  if 31 ≤ p then (List.range (numAddresses p)).map (base + ·)
  else (((List.range (numAddresses p)).map (base + ·)).drop 1).dropLast

/-- `_scan_hosts`: one record per target, ports probed in request order. -/
def scanHosts (env : NetProbeEnv) (probe_ports : List Nat) (targets : List Nat) :
    List ScanRecord :=
  targets.map (fun n =>
    let s := dottedQuad n
    { ip := s
      icmp_reachable := env.icmpAlive s
      open_ports := probe_ports.filter (env.tcpOpen s) })

/-- Batches of 256 hosts for large subnets. -/
def chunksOf (k : Nat) : Nat → List α → List (List α)
  | 0, l => [l]
  | _, [] => []
  | fuel + 1, l => l.take k :: chunksOf k fuel (l.drop k)

/-- The returned dictionary: records, `total_scanned` (an `Int`, since the
source computes `num_addresses - 2` unconditionally), and the summary
counters. -/
structure ReachResult where
  results : List ScanRecord
  total_scanned : Int
  icmp_reachable : Nat
  port_open_counts : List (Nat × Nat)
deriving Repr, DecidableEq

/-- `discover_reachable_hosts(subnets, probe_ports)`: deduplicate subnets
(`list(set(...))`, modelled in first-occurrence order), accumulate
`total_scanned += num_addresses - 2` per parsed subnet, scan every host
address (in one batch, or 256-host chunks above 256 addresses), then count
the summary statistics from the records. -/
def discover_reachable_hosts (subnets : List String) (probe_ports : List Nat)
    (env : NetProbeEnv) : ReachResult :=
  let unique := subnets.foldl (fun acc s => if s ∈ acc then acc else acc ++ [s]) []
  let st := unique.foldl
    (fun (st : List ScanRecord × Int) sn =>
      match parse_ip_network sn with
      | none => st
      | some bp =>
        let total2 := st.2 + (numAddresses bp.2 : Int) - 2
        let hosts := hostsOf bp.1 bp.2
        let recs :=
          if numAddresses bp.2 ≤ 256 then scanHosts env probe_ports hosts
          else (chunksOf 256 hosts.length hosts).foldl
            (fun acc ch => acc ++ scanHosts env probe_ports ch) []
        (st.1 ++ recs, total2))
    ([], 0)
  { results := st.1
    total_scanned := st.2
    icmp_reachable := (st.1.filter (·.icmp_reachable)).length
    port_open_counts := probe_ports.map
      (fun pt => (pt, (st.1.filter (fun r => pt ∈ r.open_ports)).length)) }

/-! ## Claim theorems -/

/-- C1: the claim says that whenever a connection succeeds with `lldp`
enabled, the returned neighbor list includes the claims parsed from the
fetched LLDP table.  In fact the source invokes `lldp_parser.parse(...)`
while `LLDPParser` defines only `parse_lldp_output`; the `AttributeError`
is swallowed by the handler, so the result is always exactly the CDP
contribution.  The second conjunct shows a concrete LLDP output whose
parsed claims are therefore lost. -/
theorem C1_lldp_claims_never_included :
    (∀ (env : ConnEnv) (protocols : List String),
      get_device_neighbors env protocols = cdpContribution env protocols) ∧
    parse_lldp_output "System Name: R2\nManagement Address: 10.0.0.2\n" "cisco_ios"
      = [{ hostname := some "R2", ip_address := some "10.0.0.2" }] ∧
    get_device_neighbors
      { connectOk := true, detectedType := "cisco_ios", cdpOutput := ""
        lldpOutput := "System Name: R2\nManagement Address: 10.0.0.2\n"
        configOutput := "" } ["cdp", "lldp"] = [] := by
  refine ⟨fun env protocols => ?_, by decide, by decide⟩
  obtain ⟨ok, dt, co, lo, cfo⟩ := env
  cases ok with
  | false => simp [get_device_neighbors, cdpContribution]
  | true =>
    by_cases hcdp : "cdp" ∈ protocols <;>
      by_cases hlldp : "lldp" ∈ protocols <;>
        by_cases hemp : parse_cdp_output co dt = [] <;>
          simp [get_device_neighbors, cdpContribution, hcdp, hlldp, hemp, callLldpParser]

/-- C3 counterexample: the claim says no emitted connection is a self-loop.
With two discovered IPs sharing the hostname `R1`, the claim of the first
device naming the second IP canonicalizes to the first device itself and a
connection with equal endpoints is emitted. -/
theorem C3_counterexample :
    ¬ (∀ c ∈ buildTopologyConnections
        [("10.0.0.1",
          { ip_address := "10.0.0.1", hostname := some "R1"
            discovery_status := "discovered"
            neighbors := [{ ip_address := some "10.0.0.2"
                            local_interface := some "Gi0/0"
                            remote_interface := some "Gi0/1" }] }),
         ("10.0.0.2",
          { ip_address := "10.0.0.2", hostname := some "R1"
            discovery_status := "discovered" })],
      c.source ≠ c.target) := by decide

/-- A one-device map whose single neighbor claim names the device's own
IP. -/
def selfClaimDevices (l r : String) : List (String × TDevice) :=
  [("10.0.0.1",
    { ip_address := "10.0.0.1", discovery_status := "discovered"
      neighbors := [{ ip_address := some "10.0.0.1"
                      local_interface := some l
                      remote_interface := some r }] })]

/-- C3 amended: the topology builder applies no self-loop filtering — only
duplicate and reversed-duplicate suppression — so a neighbor claim that
resolves to the device itself is emitted as a connection with equal source
and target. -/
theorem C3_self_loop_emitted (l r : String) :
    buildTopologyConnections (selfClaimDevices l r)
      = [{ source := "10.0.0.1", target := "10.0.0.1"
           source_port := l, target_port := r }] := rfl

/-- C4 counterexample: the claim says a prefix-less `C A.B.C.D is directly
connected` line yields only the host `/32` and never a broader guess; the
parser in fact assumes `/24` for it. -/
theorem C4_counterexample :
    "10.1.1.0/24" ∈ parse_route_output "C 10.1.1.0 is directly connected" := by decide

/-- C4 amended: a connected-route line without a `/P` prefix contributes
both the assumed `/24` subnet and the host `/32` to the harvested set. -/
theorem C4_prefixless_route_adds_24_and_32 :
    parse_route_output "C 10.1.1.0 is directly connected"
      = ["10.1.1.0/24", "10.1.1.0/32"] ∧
    parse_route_output "L        172.16.5.5 is directly connected, Loopback0"
      = ["172.16.5.5/24", "172.16.5.5/32"] := by decide

/-- C5 counterexample: the claim says every IP-bearing interface produced by
any of the interface parsers with no extracted mask defaults to
`255.255.255.255`; `DeviceHandler._parse_interfaces` never assigns a mask,
so its interfaces keep `subnet_mask = none`. -/
theorem C5_counterexample :
    ¬ (∀ i ∈ parse_interfaces
        "Loopback0 is up, line protocol is up\n  Internet address is 10.9.9.9\n"
        "cisco_ios",
      i.ip_address.isSome → i.subnet_mask.isSome) := by decide

/-- C6 counterexample: the claim says an output containing `Invalid input`
is treated as a command-error echo and yields no hostname; the guard
actually tests for `% Invalid`, so this output is returned as a
hostname. -/
theorem C6_counterexample :
    extract_hostname "Invalid input" "cisco_ios" ≠ none ∧
    extract_hostname "Invalid input" "cisco_ios" = some "Invalid input" := by decide

/-- The environment of a device whose transport port never opens. -/
def pdEnvPortClosed : PDEnv :=
  { portOpen := false
    autodetect := fun _ => some "cisco_ios"
    raised := fun _ => none
    info := fun _ => none
    configRes := fun _ => { raw_config := none, parsed_config := none }
    neighborsRes := fun _ => [] }

/-- C7 counterexample: the claim says a device whose port never opened is
committed `unreachable`; `process_device` commits it `failed` with the
default error string instead. -/
theorem C7_counterexample :
    (process_device (fun _ => false) [{ username := "admin", password := "pw" }]
        pdEnvPortClosed "10.0.0.5" 22).map PDev.discovery_status = some "failed" ∧
    (process_device (fun _ => false) [{ username := "admin", password := "pw" }]
        pdEnvPortClosed "10.0.0.5" 22).map PDev.discovery_status
      ≠ some "unreachable" ∧
    (process_device (fun _ => false) [{ username := "admin", password := "pw" }]
        pdEnvPortClosed "10.0.0.5" 22).map PDev.discovery_error
      = some (some "Failed to authenticate with any credentials") := by decide

/-- A silent network (nothing answers). -/
def probeEnvQuiet : NetProbeEnv :=
  { icmpAlive := fun _ => false, tcpOpen := fun _ _ => false }

/-- C9: the claim says `total_scanned` always equals the number of emitted
records, in particular for /31 and /32 subnets.  The counter adds
`num_addresses - 2` per subnet while `hosts()` yields every address of a
/31 or /32, so a lone /32 scan reports `total_scanned = -1` against one
record (and a /31 reports `0` against two); the equality does hold for a
/30. -/
theorem C9_total_scanned_mismatch_on_slash32 :
    (discover_reachable_hosts ["10.0.0.1/32"] [22] probeEnvQuiet).total_scanned = -1 ∧
    (discover_reachable_hosts ["10.0.0.1/32"] [22] probeEnvQuiet).results.length = 1 ∧
    (discover_reachable_hosts ["10.0.0.0/31"] [22] probeEnvQuiet).total_scanned = 0 ∧
    (discover_reachable_hosts ["10.0.0.0/31"] [22] probeEnvQuiet).results.length = 2 ∧
    (discover_reachable_hosts ["10.0.0.0/30"] [22] probeEnvQuiet).total_scanned = 2 ∧
    (discover_reachable_hosts ["10.0.0.0/30"] [22] probeEnvQuiet).results.length = 2 := by
  decide

/-- C10: whenever the connection and the configuration fetch succeed,
`get_device_config` returns the fetched text as `raw_config` but
`parsed_config = None`: the source invokes `config_parser.parse(...)`,
`ConfigParser` defines `parse_config` and no `parse`, and the resulting
`AttributeError` is caught, returning the partially filled record. -/
theorem C10_parsed_config_always_none (env : ConnEnv) (h : env.connectOk = true) :
    get_device_config env
      = { raw_config := some env.configOutput, parsed_config := none } := by
  unfold get_device_config
  rw [h]
  simp [configParserMethods]

/-- C10 witness: a concrete successful fetch. -/
theorem C10_parsed_config_always_none_witness :
    get_device_config
      { connectOk := true, detectedType := "cisco_ios", cdpOutput := ""
        lldpOutput := "", configOutput := "hostname R1\n!" }
      = { raw_config := some "hostname R1\n!", parsed_config := none } :=
  C10_parsed_config_always_none _ rfl

/-! ### C2: the emitted connection set never holds an edge and its reverse -/

theorem revConn_revConn (c : Conn) : revConn (revConn c) = c := rfl

/-- The invariant maintained by the guarded insertion: every later entry
differs from each earlier entry and from its reverse. -/
def GoodConns (l : List Conn) : Prop :=
  l.Pairwise (fun a b => b ≠ a ∧ b ≠ revConn a)

theorem eq_revConn_iff (a c : Conn) :
    a = revConn c ↔ (a.source = c.target ∧ a.target = c.source ∧
      a.source_port = c.target_port ∧ a.target_port = c.source_port) := by
  cases a; cases c; simp [revConn]

theorem insertConn_good {l : List Conn} (c : Conn) (h : GoodConns l) :
    GoodConns (insertConn l c) := by
  unfold insertConn
  split
  · exact h
  · next hx =>
    rw [GoodConns, List.pairwise_append]
    refine ⟨h, List.pairwise_singleton _ _, ?_⟩
    intro a ha b hb
    rw [List.mem_singleton] at hb
    rw [hb]
    have hna : ¬ ((decide (a = c) ||
        decide (a.source = c.target ∧ a.target = c.source ∧
          a.source_port = c.target_port ∧ a.target_port = c.source_port)) = true) :=
      fun hcontra => hx (List.any_eq_true.mpr ⟨a, ha, hcontra⟩)
    simp only [Bool.or_eq_true, decide_eq_true_eq, not_or] at hna
    exact ⟨fun hb1 => hna.1 hb1.symm,
      fun hb2 => hna.2 ((eq_revConn_iff a c).mp (by rw [hb2, revConn_revConn]))⟩

theorem foldl_preserve {α β : Type _} {P : β → Prop} (f : β → α → β)
    (hf : ∀ b a, P b → P (f b a)) :
    ∀ (l : List α) (b : β), P b → P (l.foldl f b)
  | [], _, hb => hb
  | a :: t, b, hb => foldl_preserve f hf t (f b a) (hf b a hb)

theorem procNeighbor_conns_good {dI : List String} {ca : List (String × String)}
    {cip : String} (st : TopoState) (nb : NbDict)
    (h : GoodConns st.connections) :
    GoodConns (procNeighbor dI ca cip st nb).connections := by
  unfold procNeighbor
  cases hnb : nb.ip_address with
  | none => exact h
  | some nip => exact insertConn_good _ h

theorem procDevice_conns_good {dI : List String} {ca : List (String × String)}
    (st : TopoState) (p : String × TDevice)
    (h : GoodConns st.connections) :
    GoodConns (procDevice dI ca st p).connections := by
  unfold procDevice
  split
  · exact h
  · exact foldl_preserve _ (fun b a hb => procNeighbor_conns_good b a hb) _ _ h

theorem build_topology_conns_good (devices : List (String × TDevice)) :
    GoodConns (buildTopologyConnections devices) := by
  unfold buildTopologyConnections build_topology
  exact foldl_preserve _ (fun b a hb => procDevice_conns_good b a hb) _ _
    List.Pairwise.nil

/-- C2: the connections list emitted by the topology builder never contains
both an edge and its reverse (endpoints and ports swapped) at two distinct
positions: the builder searches the existing entries for the reverse before
inserting and skips the insertion when it is present. -/
theorem C2_no_reverse_duplicate (devices : List (String × TDevice))
    (i j : Nat) (ci cj : Conn)
    (hi : (buildTopologyConnections devices)[i]? = some ci)
    (hj : (buildTopologyConnections devices)[j]? = some cj)
    (hij : i ≠ j) : cj ≠ revConn ci := by
  have hg := build_topology_conns_good devices
  rw [GoodConns, List.pairwise_iff_get] at hg
  rw [List.getElem?_eq_some] at hi hj
  obtain ⟨hi1, hi2⟩ := hi
  obtain ⟨hj1, hj2⟩ := hj
  rcases hij.lt_or_lt with hlt | hlt
  · have hp := (hg ⟨i, hi1⟩ ⟨j, hj1⟩ hlt).2
    rw [List.get_eq_getElem, List.get_eq_getElem, hi2, hj2] at hp
    exact hp
  · have hp := (hg ⟨j, hj1⟩ ⟨i, hi1⟩ hlt).2
    rw [List.get_eq_getElem, List.get_eq_getElem, hi2, hj2] at hp
    intro hcc
    exact hp (by rw [hcc, revConn_revConn])

/-- A discovered device claiming two distinct neighbors, giving two emitted
connections. -/
def c2WitnessDevices : List (String × TDevice) :=
  [("1.1.1.1",
    { ip_address := "1.1.1.1", discovery_status := "discovered"
      neighbors :=
        [{ ip_address := some "2.2.2.2", local_interface := some "a"
           remote_interface := some "b" },
         { ip_address := some "3.3.3.3", local_interface := some "c"
           remote_interface := some "d" }] })]

/-- C2 witness: the two connections of `c2WitnessDevices` are not mutual
reverses. -/
theorem C2_no_reverse_duplicate_witness :
    ({ source := "1.1.1.1", target := "3.3.3.3", source_port := "c"
       target_port := "d" } : Conn)
      ≠ revConn { source := "1.1.1.1", target := "2.2.2.2", source_port := "a"
                  target_port := "b" } :=
  C2_no_reverse_duplicate c2WitnessDevices 0 1 _ _ (by decide) (by decide)
    (by decide)

/-- C8: in every reachable state of the neighbor walk, every queue entry's
depth is at most `maxDepth`: seeds enter at depth 0 and a neighbor is
enqueued at `depth + 1` only when the dequeued entry's depth is strictly
below `maxDepth`. -/
theorem C8_queue_depth_bounded (maxDepth : Nat) (seeds : List (String × Nat))
    (s : WalkState) (h : WalkReachable maxDepth seeds s) :
    ∀ e ∈ s.queue, e.depth ≤ maxDepth := by
  induction h with
  | init =>
    intro e he
    simp only [initWalkState, List.mem_map] at he
    obtain ⟨p, _, rfl⟩ := he
    exact Nat.zero_le _
  | step s1 s2 _ hstep ih =>
    cases hstep with
    | drop e rest hq _ =>
      intro x hx
      exact ih x (by rw [hq]; exact List.mem_cons_of_mem _ hx)
    | process e rest ns idAdds hq hd hv hm =>
      intro x hx
      rw [List.mem_append] at hx
      rcases hx with hx | hx
      · exact ih x (by rw [hq]; exact List.mem_cons_of_mem _ hx)
      · split at hx
        · next hdepth =>
          rw [List.mem_map] at hx
          obtain ⟨ip, _, rfl⟩ := hx
          exact hdepth
        · exact absurd hx (List.not_mem_nil x)

/-- C8 witness: a seed entry of a concrete initial state is within the
bound. -/
theorem C8_queue_depth_bounded_witness :
    ({ ip := "10.0.0.1", port := 22, depth := 0 } : QEntry).depth ≤ 3 :=
  C8_queue_depth_bounded 3 [("10.0.0.1", 22)] _ WalkReachable.init _ (by decide)

/-! ### C5 amended: the guardrail in the seed-introspection parser -/

theorem applyDescStep_fields (name detailed : List Char) (i : DeviceInterface) :
    (applyDescStep name detailed i).subnet_mask = i.subnet_mask ∧
    (applyDescStep name detailed i).ip_address = i.ip_address := by
  unfold applyDescStep
  split <;> exact ⟨rfl, rfl⟩

theorem applyGuardrail_mask (i : DeviceInterface) (s : String)
    (hip : (applyGuardrail i).ip_address = some s) (hs : s ≠ "") :
    (applyGuardrail i).subnet_mask.isSome := by
  by_cases hc : ¬ optTruthy i.subnet_mask ∧ optTruthy i.ip_address
  · rw [applyGuardrail, if_pos hc]
    rfl
  · rw [applyGuardrail, if_neg hc] at hip ⊢
    have hipT : optTruthy i.ip_address = true := by
      rw [hip]
      simpa [optTruthy] using hs
    have hmT : optTruthy i.subnet_mask = true := by
      by_contra hno
      exact hc ⟨by simpa using hno, hipT⟩
    cases hmask : i.subnet_mask with
    | none => rw [hmask] at hmT; exact absurd hmT (by simp [optTruthy])
    | some m => rfl

theorem buildSeedIntf_mask {detailed line : List Char} {i : DeviceInterface}
    {s : String} (hb : buildSeedIntf detailed line = some i)
    (hip : i.ip_address = some s) (hs : s ≠ "") : i.subnet_mask.isSome := by
  unfold buildSeedIntf at hb
  split at hb
  · simp only [Option.some.injEq] at hb
    subst hb
    rw [(applyDescStep_fields _ _ _).1]
    exact applyGuardrail_mask _ s
      (by rw [← (applyDescStep_fields _ _ _).2]; exact hip) hs
  · exact Option.noConfusion hb

/-- C5 amended: in the seed-introspection interface parser every interface
that carries a (truthy) IP address also carries a subnet mask — the
loopback default and the last-resort /32 guardrail guarantee it.  (The
claim's extension to `DeviceHandler._parse_interfaces` is refuted by
`C5_counterexample`.) -/
theorem C5_seed_guardrail (brief detailed : String) (i : DeviceInterface)
    (s : String) (hm : i ∈ parseSeedInterfaces brief detailed)
    (hip : i.ip_address = some s) (hs : s ≠ "") :
    i.subnet_mask.isSome := by
  simp only [parseSeedInterfaces] at hm
  split at hm
  · rw [List.mem_filterMap] at hm
    obtain ⟨line, _, hb⟩ := hm
    exact buildSeedIntf_mask hb hip hs
  · exact absurd hm (List.not_mem_nil i)

/-- C5 witness: a brief line with no detailed output at all still gets the
guardrail /32 mask. -/
theorem C5_seed_guardrail_witness :
    ({ name := "Gi0", ip_address := some "10.0.0.1"
       subnet_mask := some "255.255.255.255"
       status := some "up" } : DeviceInterface).subnet_mask.isSome :=
  C5_seed_guardrail "I H\nGi0 10.0.0.1 YES NVRAM up up" "" _ "10.0.0.1"
    (by decide) (by decide) (by decide)

/-! ### C7 amended: the walk commits only `discovered` or `failed` -/

theorem finalizeDevice_status (x : PDev) :
    (finalizeDevice x).discovery_status = "discovered" ∨
    (finalizeDevice x).discovery_status = "failed" := by
  unfold finalizeDevice
  by_cases h : x.discovery_status ≠ "discovered"
  · rw [if_pos h]
    split <;> exact Or.inr rfl
  · rw [if_neg h]
    push_neg at h
    exact Or.inl h

/-- C7 amended: every device that `process_device` commits ends
`discovered` or `failed` — the `unreachable` status is never assigned by
the neighbor walk, even when the transport port never opened
(`C7_counterexample`). -/
theorem C7_commits_discovered_or_failed (excl : String → Bool)
    (creds : List CredInfo) (env : PDEnv) (ip : String) (port : Nat) (d : PDev)
    (h : process_device excl creds env ip port = some d) :
    d.discovery_status = "discovered" ∨ d.discovery_status = "failed" := by
  unfold process_device at h
  split at h
  · exact Option.noConfusion h
  · rw [Option.some.injEq] at h
    subst h
    exact finalizeDevice_status _

/-- The device committed for a closed port. -/
def c7WitnessDev : PDev :=
  { ip_address := "10.0.0.5", discovery_status := "failed"
    discovery_error := some "Failed to authenticate with any credentials" }

/-- C7 witness: the closed-port run commits `failed`. -/
theorem C7_commits_discovered_or_failed_witness :
    c7WitnessDev.discovery_status = "discovered" ∨
    c7WitnessDev.discovery_status = "failed" :=
  C7_commits_discovered_or_failed (fun _ => false)
    [{ username := "admin", password := "pw" }] pdEnvPortClosed "10.0.0.5" 22
    c7WitnessDev (by decide)

/-! ### C6 support lemmas -/

theorem reSearch_eq_none {α : Type _} {m : List Char → Option α} :
    ∀ {l : List Char}, (∀ t, t <:+ l → m t = none) → reSearch m l = none
  | [], _ => rfl
  | c :: tl, h => by
    unfold reSearch
    rw [h (c :: tl) (List.suffix_refl _)]
    exact reSearch_eq_none (fun t ht => h t (ht.trans (List.suffix_cons c tl)))

theorem litCI_lower : ∀ {p s r : List Char},
    litCI p s = some r → pyLower s = p ++ pyLower r
  | [], s, r, h => by
    unfold litCI at h
    rw [Option.some.injEq] at h
    rw [h]
    rfl
  | pc :: pt, c :: cs, r, h => by
    unfold litCI at h
    split at h
    · next heq =>
      have ih := litCI_lower h
      show (c :: cs).map Char.toLower = pc :: pt ++ pyLower r
      rw [List.map_cons, heq]
      exact congrArg (pc :: ·) ih
    · exact Option.noConfusion h
  | _ :: _, [], r, h => Option.noConfusion h

theorem matchGeneric_litCI {s : List Char} {cap : List Char}
    (h : matchHostnameGeneric s = some cap) :
    ∃ r, litCI "hostname".data s = some r := by
  unfold matchHostnameGeneric at h
  cases hl : litCI "hostname".data s with
  | none => rw [hl] at h; exact Option.noConfusion h
  | some r => exact ⟨r, rfl⟩

theorem searchGeneric_none {l : List Char}
    (h : ¬ ("hostname".data <:+: pyLower l)) :
    reSearch matchHostnameGeneric l = none := by
  apply reSearch_eq_none
  intro t ht
  cases hg : matchHostnameGeneric t with
  | none => rfl
  | some cap =>
    obtain ⟨r, hr⟩ := matchGeneric_litCI hg
    have hpre : "hostname".data <+: pyLower t := ⟨pyLower r, (litCI_lower hr).symm⟩
    have hsuf : pyLower t <:+ pyLower l := List.IsSuffix.map Char.toLower ht
    exact absurd (hpre.isInfix.trans hsuf.isInfix) h

theorem infix_dropWhile (p : Char → Bool) (c : Char) (pt : List Char)
    (hc : p c = false) :
    ∀ {l : List Char}, (c :: pt) <:+: l → (c :: pt) <:+: l.dropWhile p
  | [], h => by rw [List.infix_nil] at h; exact List.noConfusion h
  | a :: tl, h => by
    by_cases hpa : p a = true
    · rw [List.infix_cons_iff] at h
      rcases h with h | h
      · obtain ⟨u, hu⟩ := h
        injection hu with h1 _
        rw [← h1] at hpa
        rw [hc] at hpa
        exact Bool.noConfusion hpa
      · have ih := infix_dropWhile p c pt hc h
        simpa [List.dropWhile_cons, hpa] using ih
    · have h2 : (c :: pt) <:+: a :: tl := h
      simpa [List.dropWhile_cons, hpa] using h2

theorem dropWhile_append_last {p : Char → Bool} {a : Char} (ha : p a = false) :
    ∀ (xs : List Char), ∃ u, (xs ++ [a]).dropWhile p = u ++ [a]
  | [] => ⟨[], by simp [List.dropWhile_cons, ha]⟩
  | x :: xs => by
    by_cases hx : p x = true
    · obtain ⟨u, hu⟩ := dropWhile_append_last ha xs
      exact ⟨u, by simp [List.dropWhile_cons, hx, hu]⟩
    · exact ⟨x :: xs, by simp [List.dropWhile_cons, hx]⟩

theorem pyStrip_caret (r : List Char) :
    ∃ u, pyStrip ('^' :: r) = '^' :: u := by
  unfold pyStrip
  have h1 : ('^' :: r).dropWhile isPyWs = '^' :: r := by
    rw [List.dropWhile_cons]
    simp [isPyWs]
  rw [h1, List.reverse_cons]
  obtain ⟨u, hu⟩ := dropWhile_append_last (p := isPyWs) (a := '^') (by decide) r.reverse
  rw [hu, List.reverse_append]
  exact ⟨u.reverse, rfl⟩

theorem pyStrip_keeps_percent_invalid {o : List Char}
    (h : "% Invalid".data <:+: o) : "% Invalid".data <:+: pyStrip o := by
  unfold pyStrip
  have h1 : "% Invalid".data <:+: o.dropWhile isPyWs :=
    infix_dropWhile isPyWs '%' " Invalid".data (by decide) h
  have h2 : ("% Invalid".data).reverse <:+: (o.dropWhile isPyWs).reverse :=
    List.reverse_infix.mpr h1
  have hrev : ("% Invalid".data).reverse = 'd' :: "ilavnI %".data := by decide
  have h3 : ('d' :: "ilavnI %".data) <:+:
      ((o.dropWhile isPyWs).reverse.dropWhile isPyWs) :=
    infix_dropWhile isPyWs 'd' "ilavnI %".data (by decide) (hrev ▸ h2)
  apply List.reverse_infix.mp
  rw [List.reverse_reverse, hrev]
  exact h3

/-- C6 amended: for the cisco-family device types, on `show hostname`
outputs that do not contain the substring `hostname` (those take the
config-regex path first), the extractor returns the trimmed output unless
the output is empty, starts with `^`, or contains `% Invalid` — the
command-error-echo guard tests `% Invalid`, not `Invalid input` as the
claim states (see the counterexample). -/
theorem C6_error_echo_guard (output dt : String)
    (hdt : dt ∈ ciscoLikeTypes)
    (hh : ¬ ("hostname".data <:+: pyLower output.data)) :
    extract_hostname output dt =
      if output ≠ "" ∧ ¬ ("^".data <+: output.data)
          ∧ ¬ ("% Invalid".data <:+: output.data) then
        some (String.mk (pyStrip output.data))
      else none := by
  have hj : dt ≠ "juniper_junos" := by
    simp only [ciscoLikeTypes, List.mem_cons, List.not_mem_nil, or_false] at hdt
    rcases hdt with rfl | rfl | rfl | rfl <;> decide
  by_cases h0 : output = ""
  · rw [if_neg (by simp [h0])]
    simp only [extract_hostname]
    rw [if_pos h0]
  · by_cases hA : "^".data <+: output.data
    · rw [if_neg (fun hcon => hcon.2.1 hA)]
      simp only [extract_hostname]
      rw [if_neg h0, if_neg hh, if_pos hdt, if_neg (fun hc => hc.1 hA),
        if_neg hj, searchGeneric_none hh]
      obtain ⟨t, ht⟩ := hA
      have ht2 : output.data = '^' :: t := by
        rw [← ht]; rfl
      obtain ⟨u, hu⟩ := pyStrip_caret t
      rw [if_neg (fun hc => hc.2.1 (by rw [ht2, hu]; exact ⟨u, rfl⟩))]
    · by_cases hB : "% Invalid".data <:+: output.data
      · rw [if_neg (fun hcon => hcon.2.2 hB)]
        simp only [extract_hostname]
        rw [if_neg h0, if_neg hh, if_pos hdt, if_neg (fun hc => hc.2 hB),
          if_neg hj, searchGeneric_none hh]
        rw [if_neg (fun hc => hc.2.2 (pyStrip_keeps_percent_invalid hB))]
      · rw [if_pos ⟨h0, hA, hB⟩]
        simp only [extract_hostname]
        rw [if_neg h0, if_neg hh, if_pos hdt, if_pos ⟨hA, hB⟩]

/-- C6 witness: a plain hostname answer is returned trimmed. -/
theorem C6_error_echo_guard_witness :
    extract_hostname "R1\n" "cisco_ios" =
      if ("R1\n" : String) ≠ "" ∧ ¬ ("^".data <+: "R1\n".data)
          ∧ ¬ ("% Invalid".data <:+: "R1\n".data) then
        some (String.mk (pyStrip "R1\n".data))
      else none :=
  C6_error_echo_guard "R1\n" "cisco_ios" (by decide) (by decide)
